import Mathlib

/-!
Shallow embedding of the join-request verification workflow of
`src/super_bot.py` (a Telegram moderation bot), covering:

* `generate_verification_code`            (line 54)
* `is_name_suspicious`                    (line 57)
* `check_user_legitimacy`                 (line 65)
* `handle_join_request`                   (line 460)
* `enter_code_callback`                   (line 527)
* `resend_code_callback`                  (line 537)
* `handle_verification_code`              (line 558)

Modelling decisions (each noted at the definition it concerns):

* Times are natural numbers of whole seconds.  Python's
  `(datetime.now() - timestamp).seconds` is the seconds *component* of the
  timedelta, i.e. `(now - timestamp) % 86400` for a nonnegative whole-second
  difference — modelled exactly so.
* Randomness (`random.choices`) is an explicit parameter: the six uniform,
  independent draws from the 36-symbol alphabet are a function `Fin 6 → Fin 36`.
* Platform calls (`approve_chat_join_request`, `decline_chat_join_request`,
  `send_message`, message edits) are recorded as emitted effects; whether the
  approve call succeeds is an explicit boolean parameter, because only that
  outcome influences control flow (all other platform failures are swallowed
  by bare `except:` blocks without touching local state).
* `context.user_data['awaiting_code']` is per-user Telegram session data,
  modelled as a per-user boolean map inside the state.
* The user-activity audit log (`track_user_activity`, `USER_DATABASE`) only
  records analytics and is read by no code path the claims concern; it is not
  modelled.  Message formatting is kept literally where a claim mentions the
  message, with f-string interpolation rendered as string concatenation.
-/

/-- ASCII-alphanumeric test, the character class `[a-zA-Z0-9]` of the regular
expression in `is_name_suspicious`. -/
def isAsciiAlnum (c : Char) : Bool :=
  ('a' ≤ c && c ≤ 'z') || ('A' ≤ c && c ≤ 'Z') || ('0' ≤ c && c ≤ '9')

/-- Python `re.sub(r'[^a-zA-Z0-9]', '', name)`: keep only ASCII alphanumerics. -/
def stripNonAlnum (s : String) : String :=
  String.mk (s.data.filter isAsciiAlnum)

/-- Python `str.strip()`: drop leading and trailing whitespace (the inputs the
workflow sees are ASCII, where `Char.isWhitespace` matches Python). -/
def pyStrip (s : String) : String :=
  String.mk
    ((((s.data.dropWhile Char.isWhitespace).reverse).dropWhile
        Char.isWhitespace).reverse)

/-- Python `str.upper()` on the ASCII range (verification codes and the texts
compared against them are ASCII). -/
def pyUpper (s : String) : String :=
  String.mk (s.data.map Char.toUpper)

/-- The alphabet `string.ascii_uppercase + string.digits` that
`generate_verification_code` draws from: 36 symbols. -/
def codeAlphabet : List Char :=
  "ABCDEFGHIJKLMNOPQRSTUVWXYZ0123456789".data

/-- `generate_verification_code` (line 54): `random.choices(alphabet, k=6)`
joined to a string.  The six uniform draws are the explicit argument `r`. -/
def generate_verification_code (r : Fin 6 → Fin 36) : String :=
  String.mk ((List.finRange 6).map (fun i => codeAlphabet.getD (r i).val 'A'))

/-- `CODE_EXPIRY_MINUTES` (line 20). -/
def CODE_EXPIRY_MINUTES : Nat := 5

/-- User profile as seen through `context.bot.get_chat`: the account-type flag
(`user.type == "bot"`) and the first name (Python `None` and `""` are both
falsy for `not user.first_name`; both are modelled as `""`). -/
structure UserProfile where
  isBot : Bool
  firstName : String
deriving DecidableEq

/-- The dict returned by `check_user_legitimacy`. -/
structure LegitimacyResult where
  legitimate : Bool
  reason : String
  score : Nat
deriving DecidableEq

/-- `is_name_suspicious` (line 57): empty or shorter than 2 characters, or
fewer than 2 characters remain after stripping non-alphanumerics. -/
def is_name_suspicious (name : String) : Bool :=
  if name = "" || name.length < 2 then true
  else if (stripNonAlnum name).length < 2 then true
  else false

/-- `check_user_legitimacy` (line 65).  `fetchOk` is whether
`context.bot.get_chat` succeeded (the bare `except:` returns the Error
result). -/
def check_user_legitimacy (fetchOk : Bool) (u : UserProfile) : LegitimacyResult :=
  if fetchOk = false then ⟨false, "Error", 0⟩
  else if u.isBot then ⟨false, "Bot", 0⟩
  else if u.firstName = "" || is_name_suspicious u.firstName then
    ⟨false, "Suspicious name", 0⟩
  else ⟨true, "", 100⟩

/-- One entry of `PENDING_VERIFICATIONS` (created at line 502): the dict
`channel_id, channel_name, code, timestamp, attempts, max_attempts`. -/
structure JoinVerification where
  channelId : Int
  channelName : String
  code : String
  timestamp : Nat
  attempts : Nat
  maxAttempts : Nat
deriving DecidableEq

/-- Pointwise update of a keyed map. -/
def upd {κ α : Type} [DecidableEq κ] (f : κ → α) (k : κ) (v : α) : κ → α :=
  fun k' => if k' = k then v else f k'

/-- The process-global mutable state the workflow reads and writes:
`PENDING_VERIFICATIONS`, `BLOCKED_USERS`, `VERIFIED_FOR_CHANNELS`,
`BULK_APPROVAL_MODE`, `MANAGED_CHANNELS` (name lookup only), and the per-user
`awaiting_code` session flag. -/
structure BotState where
  pending : Nat → Option JoinVerification
  blocked : Nat → Bool
  verifiedFor : Nat → List Int
  bulkMode : Int → Bool
  channels : Int → Option String
  awaiting : Nat → Bool

/-- Platform calls emitted during one handler run: approve and decline calls
as `(chatId, userId)` pairs, outbound messages as `(recipient, text)`. -/
structure Effects where
  approveCalls : List (Int × Nat)
  declineCalls : List (Int × Nat)
  messages : List (Nat × String)
deriving DecidableEq

def noEffects : Effects := ⟨[], [], []⟩

/-- Concatenation of effect logs of consecutive handler runs. -/
def Effects.append (a b : Effects) : Effects :=
  ⟨a.approveCalls ++ b.approveCalls, a.declineCalls ++ b.declineCalls,
   a.messages ++ b.messages⟩

/-- Outcome labels for `handle_join_request`, naming which branch ran. -/
inductive JoinOutcome
  | bulkApproved
  | blockedDeclined
  | illegitimate
  | codeIssued
deriving DecidableEq

/-- Outcome labels for `handle_verification_code` and the two callbacks. -/
inductive VerifyOutcome
  | notAwaiting
  | noRecord
  | expired
  | approved
  | approveFailed
  | wrongRetry
  | blocked
  | resent
  | awaitingSet
deriving DecidableEq

structure JoinResult where
  state : BotState
  effects : Effects
  outcome : JoinOutcome

structure VerifyResult where
  state : BotState
  effects : Effects
  outcome : VerifyOutcome

/-- Text of the code-delivery message sent by `handle_join_request`
(line 511), with the f-string interpolations made explicit. -/
def issuanceText (channelName code : String) : String :=
  "🔐 *Verification Required*\n\nChannel: *" ++ channelName ++
    "*\n\nCode:\n```\n" ++ code ++ "\n```\n\n⏱️ " ++
    toString CODE_EXPIRY_MINUTES ++ " mins"

/-- Text of the message sent by `resend_code_callback` (line 550). -/
def newCodeText (code : String) : String :=
  "🔐 *New Code*\n\n```\n" ++ code ++ "\n```\n\n⏱️ " ++
    toString CODE_EXPIRY_MINUTES ++ " mins"

/-- Text of the success reply in `handle_verification_code` (line 590). -/
def successText (channelName : String) : String :=
  "✅ *Verified!*\n\nWelcome to *" ++ channelName ++ "*! 🎉"

/-- Text of the wrong-code reply (line 602); `remaining` can only be positive
here but is an `Int` because Python computes it by signed subtraction. -/
def incorrectText (remaining : Int) : String :=
  "❌ *Incorrect*\n\nAttempts left: " ++ toString remaining

def noPendingText : String := "❌ No pending verification"

/-- `handle_join_request` (line 460).  In order: the bulk-approval fast path
(approve and return, the call's own failure swallowed), the block-list fast
path (decline and return), the legitimacy pre-check (decline on failure), and
otherwise record creation plus the code-delivery message.  `channelName` is
looked up as `MANAGED_CHANNELS.get(channel_id, {}).get("name", "Unknown")`.
The send call's failure is swallowed without touching state, so the message is
recorded unconditionally as an emitted call. -/
def handle_join_request (s : BotState) (userId : Nat) (channelId : Int)
    (fetchOk : Bool) (profile : UserProfile) (now : Nat)
    (r : Fin 6 → Fin 36) : JoinResult :=
  let channelName := (s.channels channelId).getD "Unknown"
  if s.bulkMode channelId then
    ⟨s, ⟨[(channelId, userId)], [], []⟩, .bulkApproved⟩
  else if s.blocked userId then
    ⟨s, ⟨[], [(channelId, userId)], []⟩, .blockedDeclined⟩
  else if (check_user_legitimacy fetchOk profile).legitimate = false then
    ⟨s, ⟨[], [(channelId, userId)], []⟩, .illegitimate⟩
  else
    let code := generate_verification_code r
    let fresh : JoinVerification := ⟨channelId, channelName, code, now, 0, 3⟩
    ⟨{ s with pending := upd s.pending userId (some fresh) },
     ⟨[], [], [(userId, issuanceText channelName code)]⟩, .codeIssued⟩

/-- `enter_code_callback` (line 527): with no pending record, reply and stop;
otherwise prompt and set the per-user `awaiting_code` flag. -/
def enter_code_callback (s : BotState) (userId : Nat) : VerifyResult :=
  match s.pending userId with
  | none => ⟨s, ⟨[], [], [(userId, noPendingText)]⟩, .noRecord⟩
  | some _ =>
      ⟨{ s with awaiting := upd s.awaiting userId true },
       ⟨[], [], [(userId, "📝 *Enter Code*\n\nReply with your code.")]⟩,
       .awaitingSet⟩

/-- `resend_code_callback` (line 537): with no pending record, reply and stop;
otherwise overwrite `code` with a freshly generated one, reset `timestamp` to
the current time, and send the new code.  `attempts` is not touched. -/
def resend_code_callback (s : BotState) (userId : Nat) (now : Nat)
    (r : Fin 6 → Fin 36) : VerifyResult :=
  match s.pending userId with
  | none => ⟨s, ⟨[], [], [(userId, noPendingText)]⟩, .noRecord⟩
  | some v =>
      let code := generate_verification_code r
      let v' : JoinVerification := { v with code := code, timestamp := now }
      ⟨{ s with pending := upd s.pending userId (some v') },
       ⟨[], [], [(userId, newCodeText code)]⟩, .resent⟩

/-- `handle_verification_code` (line 558).  Control flow of the source, in
order: bail out unless `awaiting_code`; normalise the text with
`.strip().upper()`; no-record reply; expiry check via the *seconds component*
of the elapsed timedelta, `(now - timestamp) % 86400 > 300` (this is the
literal Python `.seconds`, which wraps every 24 h — not total elapsed
seconds); increment `attempts` (an in-place mutation of the stored record);
on a code match clear `awaiting_code` and attempt the approve call — on
success delete the record and append the channel to the user's verified list,
on failure reply with the error and keep the (already incremented) record; on
a mismatch compute `remaining = max_attempts - attempts` as a signed value
and either keep the record (`remaining > 0`) or delete it, block the user and
decline.  The approval-failure reply `f"❌ Error: {e}"` carries the exception
text, abstracted here to its fixed prefix. -/
def handle_verification_code (s : BotState) (userId : Nat) (text : String)
    (now : Nat) (approveOk : Bool) : VerifyResult :=
  if s.awaiting userId = false then
    ⟨s, noEffects, .notAwaiting⟩
  else
    let submitted := pyUpper (pyStrip text)
    match s.pending userId with
    | none =>
        ⟨{ s with awaiting := upd s.awaiting userId false },
         ⟨[], [], [(userId, noPendingText)]⟩, .noRecord⟩
    | some v =>
        if (now - v.timestamp) % 86400 > CODE_EXPIRY_MINUTES * 60 then
          ⟨{ s with pending := upd s.pending userId none,
                    awaiting := upd s.awaiting userId false },
           ⟨[], [(v.channelId, userId)], [(userId, "❌ *Code Expired*")]⟩,
           .expired⟩
        else
          let v' := { v with attempts := v.attempts + 1 }
          if submitted = v.code then
            if approveOk then
              ⟨{ s with pending := upd s.pending userId none,
                        awaiting := upd s.awaiting userId false,
                        verifiedFor := upd s.verifiedFor userId
                          (s.verifiedFor userId ++ [v.channelId]) },
               ⟨[(v.channelId, userId)], [],
                [(userId, successText v.channelName)]⟩, .approved⟩
            else
              ⟨{ s with pending := upd s.pending userId (some v'),
                        awaiting := upd s.awaiting userId false },
               ⟨[(v.channelId, userId)], [], [(userId, "❌ Error")]⟩,
               .approveFailed⟩
          else
            let remaining : Int := (v'.maxAttempts : Int) - (v'.attempts : Int)
            if remaining > 0 then
              ⟨{ s with pending := upd s.pending userId (some v') },
               ⟨[], [], [(userId, incorrectText remaining)]⟩, .wrongRetry⟩
            else
              ⟨{ s with pending := upd s.pending userId none,
                        awaiting := upd s.awaiting userId false,
                        blocked := upd s.blocked userId true },
               ⟨[], [(v.channelId, userId)],
                [(userId, "❌ *Failed*\n\nBlocked.")]⟩, .blocked⟩

/-- One inbound event of the workflow, carrying the environment inputs the
corresponding handler reads (current time, randomness, platform-call
outcome). -/
inductive BotEvent
  | join (userId : Nat) (channelId : Int) (fetchOk : Bool)
      (profile : UserProfile) (now : Nat) (r : Fin 6 → Fin 36)
  | enterCode (userId : Nat)
  | resend (userId : Nat) (now : Nat) (r : Fin 6 → Fin 36)
  | submit (userId : Nat) (text : String) (now : Nat) (approveOk : Bool)

/-- Dispatch one event to its handler. -/
def stepEvent (s : BotState) : BotEvent → BotState × Effects
  | .join u c f p now r =>
      let res := handle_join_request s u c f p now r
      (res.state, res.effects)
  | .enterCode u =>
      let res := enter_code_callback s u
      (res.state, res.effects)
  | .resend u now r =>
      let res := resend_code_callback s u now r
      (res.state, res.effects)
  | .submit u t now ok =>
      let res := handle_verification_code s u t now ok
      (res.state, res.effects)

/-- Run a list of events from a state, accumulating emitted effects. -/
def runEvents (s : BotState) : List BotEvent → BotState × Effects
  | [] => (s, noEffects)
  | e :: es =>
      let p := stepEvent s e
      let q := runEvents p.1 es
      (q.1, p.2.append q.2)

/-- The process's startup state: every global dictionary and set empty. -/
def startState : BotState :=
  ⟨fun _ => none, fun _ => false, fun _ => [], fun _ => false,
   fun _ => none, fun _ => false⟩

/-! ## Helper lemmas -/

@[simp] theorem upd_self {κ α : Type} [DecidableEq κ] (f : κ → α) (k : κ)
    (v : α) : upd f k v k = v := by
  simp [upd]

@[simp] theorem upd_ne {κ α : Type} [DecidableEq κ] (f : κ → α) (k k' : κ)
    (v : α) (h : k' ≠ k) : upd f k v k' = f k' := by
  simp [upd, h]

theorem mod_day_of_fresh {a : Nat} (h : a ≤ CODE_EXPIRY_MINUTES * 60) :
    a % 86400 = a :=
  Nat.mod_eq_of_lt (by simp [CODE_EXPIRY_MINUTES] at h; omega)

/-! ## Concrete fixtures for witnesses and counterexamples -/

/-- Randomness fixture: all six draws pick index 0, so the generated code is
`"AAAAAA"`. -/
def rZero : Fin 6 → Fin 36 := fun _ => ⟨0, by omega⟩

/-- A state with one pending record for user 7 (code `"AB12CD"` issued at
time 0 for channel 100) who is in `awaiting_code` mode. -/
def stPending : BotState :=
  ⟨fun u => if u = 7 then some ⟨100, "C", "AB12CD", 0, 0, 3⟩ else none,
   fun _ => false, fun _ => [], fun _ => false, fun _ => none,
   fun u => decide (u = 7)⟩

/-! ## C1 -/

/-- C1: a pending user submitting text that strips and upper-cases to the
record's code, within the expiry window and the attempt budget, with the
approve call succeeding, causes exactly one `approveJoinRequest` call for the
record's `(chatId, userId)`, deletion of the record, and the chatId being
appended to the user's verified-chats list. -/
theorem c1_correct_code_approved (s : BotState) (u : Nat)
    (v : JoinVerification) (text : String) (now : Nat)
    (haw : s.awaiting u = true)
    (hrec : s.pending u = some v)
    (hts : v.timestamp ≤ now)
    (hfresh : now - v.timestamp ≤ CODE_EXPIRY_MINUTES * 60)
    (hbudget : v.attempts < v.maxAttempts)
    (hcode : pyUpper (pyStrip text) = v.code) :
    (handle_verification_code s u text now true).effects.approveCalls
        = [(v.channelId, u)] ∧
    (handle_verification_code s u text now true).effects.declineCalls = [] ∧
    (handle_verification_code s u text now true).state.pending u = none ∧
    (handle_verification_code s u text now true).state.verifiedFor u
        = s.verifiedFor u ++ [v.channelId] ∧
    (handle_verification_code s u text now true).outcome
        = VerifyOutcome.approved := by
  have hexp : ¬ ((now - v.timestamp) % 86400 > CODE_EXPIRY_MINUTES * 60) := by
    rw [mod_day_of_fresh hfresh]; omega
  simp [handle_verification_code, haw, hrec, hexp, hcode]

/-- C1 witness: the concrete fixture, submitting `" ab12cd "` at `t = 100`. -/
theorem c1_witness :
    (handle_verification_code stPending 7 " ab12cd " 100 true).effects.approveCalls
        = [(100, 7)] ∧
    (handle_verification_code stPending 7 " ab12cd " 100 true).effects.declineCalls
        = [] ∧
    (handle_verification_code stPending 7 " ab12cd " 100 true).state.pending 7
        = none ∧
    (handle_verification_code stPending 7 " ab12cd " 100 true).state.verifiedFor 7
        = stPending.verifiedFor 7 ++ [(100 : Int)] ∧
    (handle_verification_code stPending 7 " ab12cd " 100 true).outcome
        = VerifyOutcome.approved :=
  c1_correct_code_approved stPending 7 ⟨100, "C", "AB12CD", 0, 0, 3⟩
    " ab12cd " 100 (by decide) (by decide) (by decide) (by decide)
    (by decide) (by decide)

/-! ## C2 -/

/-- C2 (code bug): the expiry test uses the *seconds component* of the
elapsed timedelta (`.seconds`, which wraps every 24 hours) instead of total
elapsed seconds, so a correct code submitted 86500 seconds (one day plus
100 s) after issuance is treated as not expired and is approved —
contradicting the claim that any submission after the 5-minute window yields
`EXPIRED` and never `APPROVED`. -/
theorem c2_expiry_wraps_after_a_day :
    (handle_verification_code stPending 7 "AB12CD" 86500 true).outcome
        = VerifyOutcome.approved ∧
    (handle_verification_code stPending 7 "AB12CD" 86500 true).effects.approveCalls
        = [(100, 7)] ∧
    (handle_verification_code stPending 7 "AB12CD" 86500 true).effects.declineCalls
        = [] := by
  decide

/-! ## C3 -/

/-- The invariant of §3 of the spec: every pending record's attempt counter
is within its budget. -/
def AttemptsInv (s : BotState) : Prop :=
  ∀ u v, s.pending u = some v → v.attempts ≤ v.maxAttempts

/-- Environment restriction: the event's approve call (if it is a code
submission) succeeds. -/
def approveNeverFails : BotEvent → Prop
  | .submit _ _ _ ok => ok = true
  | _ => True

theorem attemptsInv_join (s : BotState) (u : Nat) (c : Int) (f : Bool)
    (p : UserProfile) (now : Nat) (r : Fin 6 → Fin 36) (hs : AttemptsInv s) :
    AttemptsInv (handle_join_request s u c f p now r).state := by
  intro w x hw
  by_cases hb : s.bulkMode c
  · simp [handle_join_request, hb] at hw; exact hs w x hw
  · by_cases hbl : s.blocked u
    · simp [handle_join_request, hb, hbl] at hw; exact hs w x hw
    · by_cases hleg : (check_user_legitimacy f p).legitimate = false
      · simp [handle_join_request, hb, hbl, hleg] at hw; exact hs w x hw
      · simp [handle_join_request, hb, hbl, hleg, upd] at hw
        rcases eq_or_ne w u with rfl | hne
        · simp at hw; subst hw; simp
        · simp [hne] at hw; exact hs w x hw

theorem attemptsInv_enter (s : BotState) (u : Nat) (hs : AttemptsInv s) :
    AttemptsInv (enter_code_callback s u).state := by
  intro w x hw
  rcases hrec : s.pending u with _ | v <;>
    simp [enter_code_callback, hrec] at hw <;> exact hs w x hw

theorem attemptsInv_resend (s : BotState) (u : Nat) (now : Nat)
    (r : Fin 6 → Fin 36) (hs : AttemptsInv s) :
    AttemptsInv (resend_code_callback s u now r).state := by
  intro w x hw
  rcases hrec : s.pending u with _ | v
  · simp [resend_code_callback, hrec] at hw; exact hs w x hw
  · simp [resend_code_callback, hrec, upd] at hw
    rcases eq_or_ne w u with rfl | hne
    · simp at hw; subst hw; simpa using hs w v hrec
    · simp [hne] at hw; exact hs w x hw

theorem attemptsInv_submit (s : BotState) (u : Nat) (text : String)
    (now : Nat) (hs : AttemptsInv s) :
    AttemptsInv (handle_verification_code s u text now true).state := by
  intro w x hw
  by_cases haw : s.awaiting u = false
  · simp [handle_verification_code, haw] at hw; exact hs w x hw
  · rcases hrec : s.pending u with _ | v
    · simp [handle_verification_code, haw, hrec] at hw; exact hs w x hw
    · by_cases hexp : (now - v.timestamp) % 86400 > CODE_EXPIRY_MINUTES * 60
      · simp [handle_verification_code, haw, hrec, hexp, upd] at hw
        rcases eq_or_ne w u with rfl | hne
        · simp at hw
        · simp [hne] at hw; exact hs w x hw
      · by_cases hm : pyUpper (pyStrip text) = v.code
        · simp [handle_verification_code, haw, hrec, hexp, hm, upd] at hw
          rcases eq_or_ne w u with rfl | hne
          · simp at hw
          · simp [hne] at hw; exact hs w x hw
        · by_cases hr : ((v.attempts : Int) + 1 < (v.maxAttempts : Int))
          · simp [handle_verification_code, haw, hrec, hexp, hm, hr, upd] at hw
            rcases eq_or_ne w u with rfl | hne
            · simp at hw; subst hw; simp; omega
            · simp [hne] at hw; exact hs w x hw
          · simp [handle_verification_code, haw, hrec, hexp, hm, hr, upd] at hw
            rcases eq_or_ne w u with rfl | hne
            · simp at hw
            · simp [hne] at hw; exact hs w x hw

theorem attemptsInv_run (es : List BotEvent) :
    ∀ s : BotState, AttemptsInv s → (∀ e ∈ es, approveNeverFails e) →
      AttemptsInv (runEvents s es).1 := by
  induction es with
  | nil => intro s hs _; simpa [runEvents] using hs
  | cons e es ih =>
      intro s hs hok
      have hstep : AttemptsInv (stepEvent s e).1 := by
        have he := hok e (by simp)
        cases e with
        | join u c f p now r => exact attemptsInv_join s u c f p now r hs
        | enterCode u => exact attemptsInv_enter s u hs
        | resend u now r => exact attemptsInv_resend s u now r hs
        | submit u t now ok =>
            have : ok = true := he
            subst this
            exact attemptsInv_submit s u t now hs
      have := ih (stepEvent s e).1 hstep (fun e' h => hok e' (by simp [h]))
      simpa [runEvents] using this

/-- A state with a pending record for user 7 that already has 2 incorrect
attempts, one short of the budget. -/
def stAlmost : BotState :=
  ⟨fun u => if u = 7 then some ⟨100, "C", "AB12CD", 0, 2, 3⟩ else none,
   fun _ => false, fun _ => [], fun _ => false, fun _ => none,
   fun u => decide (u = 7)⟩

/-- C3 (amended): over every event sequence from the startup state in which
no approve call fails, every pending record satisfies
`attempts ≤ maxAttempts`; and a before-expiry mismatching submission that
brings the counter to the budget deletes the record, blocks the user, and
declines the join request.  (The unrestricted claim is refuted by
`c3_attempts_can_exceed_max`: a failing approve call preserves a record whose
counter was already incremented.) -/
theorem c3_attempts_bounded_without_approve_failures :
    (∀ es : List BotEvent, (∀ e ∈ es, approveNeverFails e) →
      ∀ u v, (runEvents startState es).1.pending u = some v →
        v.attempts ≤ v.maxAttempts) ∧
    (∀ (s : BotState) (u : Nat) (v : JoinVerification) (text : String)
        (now : Nat) (ok : Bool),
      s.awaiting u = true → s.pending u = some v →
      now - v.timestamp ≤ CODE_EXPIRY_MINUTES * 60 →
      pyUpper (pyStrip text) ≠ v.code →
      v.maxAttempts ≤ v.attempts + 1 →
      (handle_verification_code s u text now ok).state.pending u = none ∧
      (handle_verification_code s u text now ok).state.blocked u = true ∧
      (handle_verification_code s u text now ok).effects.declineCalls
          = [(v.channelId, u)]) := by
  constructor
  · intro es hok u v h
    refine attemptsInv_run es startState ?_ hok u v h
    intro w x hw
    simp [startState] at hw
  · intro s u v text now ok haw hrec hfresh hm hmax
    have hexp : ¬ ((now - v.timestamp) % 86400 > CODE_EXPIRY_MINUTES * 60) := by
      rw [mod_day_of_fresh hfresh]; omega
    have hr : ¬ ((v.attempts : Int) + 1 < (v.maxAttempts : Int)) := by
      omega
    simp [handle_verification_code, haw, hrec, hexp, hm, hr]

/-- C3 counterexample: from the startup state, the sequence join → wrong,
wrong → correct code with a failing approve call (twice, re-entering code
mode in between) leaves a pending record with `attempts = 4` while
`maxAttempts = 3`. -/
def c3trace : List BotEvent :=
  [.join 7 100 true ⟨false, "Alice"⟩ 0 rZero,
   .enterCode 7,
   .submit 7 "X" 0 true,
   .submit 7 "X" 0 true,
   .submit 7 "AAAAAA" 0 false,
   .enterCode 7,
   .submit 7 "AAAAAA" 0 false]

/-- C3 counterexample: a reachable record whose attempt counter exceeds its
budget (4 > 3), produced by submissions whose approve call fails. -/
theorem c3_attempts_can_exceed_max :
    (runEvents startState c3trace).1.pending 7
        = some ⟨100, "Unknown", "AAAAAA", 0, 4, 3⟩ := by
  decide

/-- C3 witness: the invariant instantiated on a one-event trace, and the
blocking clause instantiated on a record with two prior incorrect attempts. -/
theorem c3_witness :
    (⟨100, "Unknown", "AAAAAA", 0, 0, 3⟩ : JoinVerification).attempts ≤
      (⟨100, "Unknown", "AAAAAA", 0, 0, 3⟩ : JoinVerification).maxAttempts ∧
    (handle_verification_code stAlmost 7 "WRONG3" 50 true).state.pending 7
        = none ∧
    (handle_verification_code stAlmost 7 "WRONG3" 50 true).state.blocked 7
        = true ∧
    (handle_verification_code stAlmost 7 "WRONG3" 50 true).effects.declineCalls
        = [((100 : Int), 7)] := by
  refine ⟨?_, ?_⟩
  · exact c3_attempts_bounded_without_approve_failures.1
      [.join 7 100 true ⟨false, "Alice"⟩ 0 rZero]
      (by intro e he; rw [List.mem_singleton] at he; subst he; trivial)
      7 ⟨100, "Unknown", "AAAAAA", 0, 0, 3⟩ (by decide)
  · exact c3_attempts_bounded_without_approve_failures.2 stAlmost 7
      ⟨100, "C", "AB12CD", 0, 2, 3⟩ "WRONG3" 50 true
      (by decide) (by decide) (by decide) (by decide) (by decide)

/-! ## C4 -/

/-- C4: from a fresh pending record (no attempts used), three submissions in
succession, each mismatching the code and within the expiry window, block the
user: afterwards the user is in the block set, the record is deleted, and
exactly one `declineJoinRequest` call was made, with no approve call. -/
theorem c4_three_wrong_blocks (s : BotState) (u : Nat) (v : JoinVerification)
    (w1 w2 w3 : String) (t1 t2 t3 : Nat) (ok1 ok2 ok3 : Bool)
    (haw : s.awaiting u = true) (hrec : s.pending u = some v)
    (hatt : v.attempts = 0) (hmax : v.maxAttempts = 3)
    (hf1 : t1 - v.timestamp ≤ CODE_EXPIRY_MINUTES * 60)
    (hf2 : t2 - v.timestamp ≤ CODE_EXPIRY_MINUTES * 60)
    (hf3 : t3 - v.timestamp ≤ CODE_EXPIRY_MINUTES * 60)
    (hw1 : pyUpper (pyStrip w1) ≠ v.code)
    (hw2 : pyUpper (pyStrip w2) ≠ v.code)
    (hw3 : pyUpper (pyStrip w3) ≠ v.code) :
    (runEvents s [.submit u w1 t1 ok1, .submit u w2 t2 ok2,
        .submit u w3 t3 ok3]).1.blocked u = true ∧
    (runEvents s [.submit u w1 t1 ok1, .submit u w2 t2 ok2,
        .submit u w3 t3 ok3]).1.pending u = none ∧
    (runEvents s [.submit u w1 t1 ok1, .submit u w2 t2 ok2,
        .submit u w3 t3 ok3]).2.declineCalls = [(v.channelId, u)] ∧
    (runEvents s [.submit u w1 t1 ok1, .submit u w2 t2 ok2,
        .submit u w3 t3 ok3]).2.approveCalls = [] := by
  have hex1 : ¬ ((t1 - v.timestamp) % 86400 > CODE_EXPIRY_MINUTES * 60) := by
    rw [mod_day_of_fresh hf1]; omega
  have hex2 : ¬ ((t2 - v.timestamp) % 86400 > CODE_EXPIRY_MINUTES * 60) := by
    rw [mod_day_of_fresh hf2]; omega
  have hex3 : ¬ ((t3 - v.timestamp) % 86400 > CODE_EXPIRY_MINUTES * 60) := by
    rw [mod_day_of_fresh hf3]; omega
  simp [runEvents, stepEvent, handle_verification_code, haw, hrec, hatt, hmax,
        hex1, hex2, hex3, hw1, hw2, hw3, upd, noEffects, Effects.append]

/-- C4 witness: the fresh fixture record blocked by `"WRONG1"`, `"WRONG2"`,
`"WRONG3"`. -/
theorem c4_witness :
    (runEvents stPending [.submit 7 "WRONG1" 10 true, .submit 7 "WRONG2" 20 true,
        .submit 7 "WRONG3" 30 true]).1.blocked 7 = true ∧
    (runEvents stPending [.submit 7 "WRONG1" 10 true, .submit 7 "WRONG2" 20 true,
        .submit 7 "WRONG3" 30 true]).1.pending 7 = none ∧
    (runEvents stPending [.submit 7 "WRONG1" 10 true, .submit 7 "WRONG2" 20 true,
        .submit 7 "WRONG3" 30 true]).2.declineCalls = [((100 : Int), 7)] ∧
    (runEvents stPending [.submit 7 "WRONG1" 10 true, .submit 7 "WRONG2" 20 true,
        .submit 7 "WRONG3" 30 true]).2.approveCalls = [] :=
  c4_three_wrong_blocks stPending 7 ⟨100, "C", "AB12CD", 0, 0, 3⟩
    "WRONG1" "WRONG2" "WRONG3" 10 20 30 true true true
    (by decide) (by decide) (by decide) (by decide) (by decide) (by decide)
    (by decide) (by decide) (by decide) (by decide)

/-! ## C5 -/

/-- ASCII digit test. -/
def isAsciiDigit (c : Char) : Bool := '0' ≤ c && c ≤ '9'

/-- ASCII punctuation: printable, neither alphanumeric nor space (Python's
`string.punctuation`). -/
def isAsciiPunct (c : Char) : Bool :=
  ('!' ≤ c && c ≤ '~') && !isAsciiAlnum c

/-- Modelled from the spec (§4.1 name-suspicion test), for comparison with
the source's `is_name_suspicious`: empty or shorter than 2 characters; or
fewer than 2 characters after stripping non-alphanumerics; or purely digits,
purely punctuation, or purely whitespace; or more than 70% of the characters
non-alphanumeric and non-whitespace. -/
def spec_name_suspicious (name : String) : Bool :=
  name.length < 2 ||
  (stripNonAlnum name).length < 2 ||
  (!(name == "") && name.data.all isAsciiDigit) ||
  (!(name == "") && name.data.all isAsciiPunct) ||
  (!(name == "") && name.data.all Char.isWhitespace) ||
  ((name.data.filter (fun c => !isAsciiAlnum c && !c.isWhitespace)).length * 10
      > name.length * 7)

/-- Modelled from the spec (§4.1): bot accounts are always rejected, others
iff the name-suspicion test fires. -/
def spec_rejects (p : UserProfile) : Bool :=
  p.isBot || spec_name_suspicious p.firstName

/-- C5 counterexample: the purely-digits name `"12"` is suspicious per the
spec's predicate, yet the source accepts it — `is_name_suspicious` has no
pure-digits (nor 70%-symbols) clause, so the claimed equivalence fails. -/
theorem c5_pure_digits_accepted :
    (check_user_legitimacy true ⟨false, "12"⟩).legitimate = true ∧
    spec_rejects ⟨false, "12"⟩ = true := by
  decide

/-- C5 (amended): with the profile fetch succeeding, the pre-check rejects a
user iff the account is a bot, or the first name is shorter than 2
characters (including empty), or stripping non-alphanumerics leaves fewer
than 2 characters; in particular the two-emoji name fails and `"Al"`
passes.  (Pure punctuation and pure whitespace are special cases of the
stripped-length rule; pure-digit names of length ≥ 2 are accepted and no
70%-symbols rule exists in the source.) -/
theorem c5_legitimacy_iff :
    (∀ p : UserProfile,
      (check_user_legitimacy true p).legitimate = false ↔
        (p.isBot = true ∨ p.firstName.length < 2 ∨
         (stripNonAlnum p.firstName).length < 2)) ∧
    (check_user_legitimacy true ⟨false, "🔥🔥"⟩).legitimate = false ∧
    (check_user_legitimacy true ⟨false, "Al"⟩).legitimate = true := by
  refine ⟨?_, by decide, by decide⟩
  intro p
  obtain ⟨b, name⟩ := p
  cases b
  · by_cases h0 : name = ""
    · subst h0
      simp [check_user_legitimacy, is_name_suspicious]
    · by_cases h1 : name.length < 2
      · simp [check_user_legitimacy, is_name_suspicious, h0, h1]
      · by_cases h2 : (stripNonAlnum name).length < 2
        · simp [check_user_legitimacy, is_name_suspicious, h0, h1, h2]
        · simp [check_user_legitimacy, is_name_suspicious, h0, h1, h2]
  · simp [check_user_legitimacy]

/-! ## C6 -/

theorem codeAlphabet_length : codeAlphabet.length = 36 := by decide

theorem codeAlphabet_nodup : codeAlphabet.Nodup := by decide

theorem generate_code_length (r : Fin 6 → Fin 36) :
    (generate_verification_code r).length = 6 := by
  simp [generate_verification_code, String.length]

theorem generate_code_chars (r : Fin 6 → Fin 36) :
    ∀ c ∈ (generate_verification_code r).data, c ∈ codeAlphabet := by
  intro c hc
  simp only [generate_verification_code, List.mem_map, List.mem_finRange,
    true_and] at hc
  obtain ⟨i, hi⟩ := hc
  have h : (r i).val < codeAlphabet.length := by
    rw [codeAlphabet_length]; exact (r i).isLt
  rw [← hi, List.getD_eq_getElem _ _ h]
  exact List.getElem_mem h

theorem generate_code_inj (r r' : Fin 6 → Fin 36)
    (h : generate_verification_code r = generate_verification_code r') :
    r = r' := by
  funext i
  have hd := congrArg String.data h
  simp only [generate_verification_code] at hd
  rw [List.map_inj_left] at hd
  have hi := hd i (by simp)
  have h1 : (r i).val < codeAlphabet.length := by
    rw [codeAlphabet_length]; exact (r i).isLt
  have h2 : (r' i).val < codeAlphabet.length := by
    rw [codeAlphabet_length]; exact (r' i).isLt
  rw [List.getD_eq_getElem _ _ h1, List.getD_eq_getElem _ _ h2] at hi
  exact Fin.ext ((List.Nodup.getElem_inj_iff codeAlphabet_nodup).mp hi)

theorem generate_code_surj (code : String) (hlen : code.length = 6)
    (hmem : ∀ c ∈ code.data, c ∈ codeAlphabet) :
    ∃ r : Fin 6 → Fin 36, generate_verification_code r = code := by
  have hdl : code.data.length = 6 := hlen
  have hidx : ∀ n : Nat, n < code.data.length →
      code.data.getD n 'A' ∈ code.data := by
    intro n hb
    rw [List.getD_eq_getElem _ _ hb]
    exact List.getElem_mem hb
  refine ⟨fun i => ⟨codeAlphabet.indexOf (code.data.getD i.val 'A'), ?_⟩, ?_⟩
  · rw [← codeAlphabet_length]
    exact List.indexOf_lt_length.mpr
      (hmem _ (hidx i.val (by rw [hdl]; exact i.isLt)))
  · apply String.ext
    simp only [generate_verification_code]
    apply List.ext_getElem
    · simp [hdl]
    · intro n h1 h2
      simp only [List.getElem_map, List.getElem_finRange, Fin.coe_cast]
      have hb : n < code.data.length := h2
      have hin : codeAlphabet.indexOf (code.data.getD n 'A')
          < codeAlphabet.length :=
        List.indexOf_lt_length.mpr (hmem _ (hidx n hb))
      rw [List.getD_eq_getElem _ _ hin, List.getElem_indexOf hin,
        List.getD_eq_getElem _ _ hb]

/-- C6 counterexample: on a successful code issuance the handler sends no
message to anyone but the requester (user 7) — in particular none to the
operator — refuting the claimed operator copy of the code. -/
theorem c6_no_operator_message :
    ((handle_join_request startState 7 100 true ⟨false, "Alice"⟩ 0
        rZero).effects.messages.filter (fun m => m.1 != 7)) = [] ∧
    (handle_join_request startState 7 100 true ⟨false, "Alice"⟩ 0
        rZero).effects.messages.length = 1 ∧
    (handle_join_request startState 7 100 true ⟨false, "Alice"⟩ 0
        rZero).outcome = JoinOutcome.codeIssued := by
  decide

/-- C6 (amended): a join request that passes the fast paths and the
legitimacy pre-check creates a record with `attempts = 0` (and
`maxAttempts = 3`) holding a 6-character code over the 36-symbol alphabet
A–Z0–9 — the generator is a bijection from the six uniform draws onto
exactly those codes, so the code is drawn uniformly — and sends exactly one
outbound message, to the requester, containing that code; no operator
message is sent. -/
theorem c6_issuance (s : BotState) (u : Nat) (c : Int) (f : Bool)
    (p : UserProfile) (now : Nat) (r : Fin 6 → Fin 36)
    (hb : s.bulkMode c = false) (hbl : s.blocked u = false)
    (hleg : (check_user_legitimacy f p).legitimate = true) :
    (handle_join_request s u c f p now r).state.pending u
        = some ⟨c, (s.channels c).getD "Unknown",
                generate_verification_code r, now, 0, 3⟩ ∧
    (handle_join_request s u c f p now r).effects.messages
        = [(u, issuanceText ((s.channels c).getD "Unknown")
              (generate_verification_code r))] ∧
    (generate_verification_code r).length = 6 ∧
    (∀ ch ∈ (generate_verification_code r).data, ch ∈ codeAlphabet) ∧
    (∀ r₁ r₂ : Fin 6 → Fin 36,
      generate_verification_code r₁ = generate_verification_code r₂ →
        r₁ = r₂) ∧
    (∀ code : String, code.length = 6 →
      (∀ ch ∈ code.data, ch ∈ codeAlphabet) →
        ∃ r' : Fin 6 → Fin 36, generate_verification_code r' = code) := by
  have hleg' : ¬ ((check_user_legitimacy f p).legitimate = false) := by
    simp [hleg]
  refine ⟨?_, ?_, generate_code_length r, generate_code_chars r,
    generate_code_inj, generate_code_surj⟩
  · simp [handle_join_request, hb, hbl, hleg']
  · simp [handle_join_request, hb, hbl, hleg']

/-- C6 witness: issuance for user 7 from the startup state with the all-zero
draw (code `"AAAAAA"`). -/
theorem c6_witness :
    (handle_join_request startState 7 100 true ⟨false, "Alice"⟩ 0
        rZero).state.pending 7
      = some ⟨100, "Unknown", generate_verification_code rZero, 0, 0, 3⟩ ∧
    (handle_join_request startState 7 100 true ⟨false, "Alice"⟩ 0
        rZero).effects.messages
      = [(7, issuanceText "Unknown" (generate_verification_code rZero))] :=
  ⟨(c6_issuance startState 7 100 true ⟨false, "Alice"⟩ 0 rZero
      rfl rfl (by decide)).1,
   (c6_issuance startState 7 100 true ⟨false, "Alice"⟩ 0 rZero
      rfl rfl (by decide)).2.1⟩

/-! ## C7 -/

/-- A state where user 7 is blocked and channel 100 is in bulk-approval
mode. -/
def stBulkBlocked : BotState :=
  ⟨fun _ => none, fun u => decide (u = 7), fun _ => [],
   fun c => decide (c = 100), fun _ => none, fun _ => false⟩

/-- C7 counterexample: the bulk-approval fast path runs *before* the
block-list check, so a blocked user requesting to join a bulk-mode chat is
approved, not declined. -/
theorem c7_bulk_mode_beats_block_list :
    (handle_join_request stBulkBlocked 7 100 true ⟨false, "Alice"⟩ 0
        rZero).effects.approveCalls = [((100 : Int), 7)] ∧
    (handle_join_request stBulkBlocked 7 100 true ⟨false, "Alice"⟩ 0
        rZero).effects.declineCalls = [] ∧
    stBulkBlocked.blocked 7 = true := by
  decide

/-- C7 (amended): provided the target chat is not in bulk-approval mode, a
join request from a blocked user is declined exactly once, no approve call
is made, no code message is sent, and the state — in particular the
verification map — is unchanged, regardless of the legitimacy-check
outcome. -/
theorem c7_blocked_always_declined (s : BotState) (u : Nat) (c : Int)
    (f : Bool) (p : UserProfile) (now : Nat) (r : Fin 6 → Fin 36)
    (hb : s.bulkMode c = false) (hbl : s.blocked u = true) :
    (handle_join_request s u c f p now r).effects.declineCalls = [(c, u)] ∧
    (handle_join_request s u c f p now r).effects.approveCalls = [] ∧
    (handle_join_request s u c f p now r).effects.messages = [] ∧
    (handle_join_request s u c f p now r).state = s := by
  simp [handle_join_request, hb, hbl]

/-- A state where user 7 is blocked and no chat is in bulk mode. -/
def stBlocked : BotState :=
  ⟨fun _ => none, fun u => decide (u = 7), fun _ => [], fun _ => false,
   fun _ => none, fun _ => false⟩

/-- C7 witness: the blocked user 7, requesting a non-bulk chat with a
perfectly legitimate profile, is declined with no record created. -/
theorem c7_witness :
    (handle_join_request stBlocked 7 100 true ⟨false, "Alice"⟩ 0
        rZero).effects.declineCalls = [((100 : Int), 7)] ∧
    (handle_join_request stBlocked 7 100 true ⟨false, "Alice"⟩ 0
        rZero).effects.approveCalls = [] ∧
    (handle_join_request stBlocked 7 100 true ⟨false, "Alice"⟩ 0
        rZero).effects.messages = [] ∧
    (handle_join_request stBlocked 7 100 true ⟨false, "Alice"⟩ 0
        rZero).state = stBlocked :=
  c7_blocked_always_declined stBlocked 7 100 true ⟨false, "Alice"⟩ 0 rZero
    rfl (by decide)

/-! ## C8 -/

/-- C8 counterexample: when the approve call for a correct code fails, the
record is kept but *not* unchanged — its attempt counter was already
incremented in place before the call, so the stored record differs from the
one that was pending before the submission. -/
theorem c8_record_changed_on_failure :
    (handle_verification_code stPending 7 "AB12CD" 100 false).state.pending 7
        = some ⟨100, "C", "AB12CD", 0, 1, 3⟩ ∧
    ¬ (handle_verification_code stPending 7 "AB12CD" 100 false).state.pending 7
        = stPending.pending 7 := by
  decide

/-- C8 (amended): if a correct-code submission's approve call fails, the
record stays in the verification map with only `attempts` incremented (code,
chat, name, timestamp, budget untouched), the error is surfaced to the user,
and the user can resubmit the same code through the same path after pressing
the enter-code control again — a succeeding approve call then approves. -/
theorem c8_approve_failure_preserves_record (s : BotState) (u : Nat)
    (v : JoinVerification) (text : String) (now now' : Nat)
    (haw : s.awaiting u = true) (hrec : s.pending u = some v)
    (hf : now - v.timestamp ≤ CODE_EXPIRY_MINUTES * 60)
    (hf' : now' - v.timestamp ≤ CODE_EXPIRY_MINUTES * 60)
    (hcode : pyUpper (pyStrip text) = v.code) :
    (handle_verification_code s u text now false).state.pending u
        = some { v with attempts := v.attempts + 1 } ∧
    (handle_verification_code s u text now false).outcome
        = VerifyOutcome.approveFailed ∧
    (handle_verification_code s u text now false).effects.messages
        = [(u, "❌ Error")] ∧
    (handle_verification_code
        (enter_code_callback
          (handle_verification_code s u text now false).state u).state
        u text now' true).outcome = VerifyOutcome.approved ∧
    (handle_verification_code
        (enter_code_callback
          (handle_verification_code s u text now false).state u).state
        u text now' true).effects.approveCalls = [(v.channelId, u)] := by
  have hexp : ¬ ((now - v.timestamp) % 86400 > CODE_EXPIRY_MINUTES * 60) := by
    rw [mod_day_of_fresh hf]; omega
  have hexp' : ¬ ((now' - v.timestamp) % 86400 > CODE_EXPIRY_MINUTES * 60) := by
    rw [mod_day_of_fresh hf']; omega
  simp [handle_verification_code, enter_code_callback, haw, hrec, hexp,
    hexp', hcode, upd]

/-- C8 witness: the fixture record, correct code `"AB12CD"`, approve call
failing at `t = 100`, then resubmitted at `t = 200` with the call
succeeding. -/
theorem c8_witness :
    (handle_verification_code stPending 7 "AB12CD" 100 false).state.pending 7
        = some ⟨100, "C", "AB12CD", 0, 1, 3⟩ ∧
    (handle_verification_code stPending 7 "AB12CD" 100 false).outcome
        = VerifyOutcome.approveFailed ∧
    (handle_verification_code stPending 7 "AB12CD" 100 false).effects.messages
        = [(7, "❌ Error")] ∧
    (handle_verification_code
        (enter_code_callback
          (handle_verification_code stPending 7 "AB12CD" 100 false).state
          7).state
        7 "AB12CD" 200 true).outcome = VerifyOutcome.approved ∧
    (handle_verification_code
        (enter_code_callback
          (handle_verification_code stPending 7 "AB12CD" 100 false).state
          7).state
        7 "AB12CD" 200 true).effects.approveCalls = [((100 : Int), 7)] :=
  c8_approve_failure_preserves_record stPending 7 ⟨100, "C", "AB12CD", 0, 0, 3⟩
    "AB12CD" 100 200 (by decide) (by decide) (by decide) (by decide)
    (by decide)

/-! ## C9 -/

/-- C9: a resend with a pending record overwrites `code` with the freshly
generated one and resets `timestamp` to the current time, leaving
`attempts`, `channelId`, `channelName` and `maxAttempts` (and every other
component of the state) unchanged; a resend with no pending record replies
"no pending verification" and changes nothing. -/
theorem c9_resend_effects (s : BotState) (u : Nat) (now : Nat)
    (r : Fin 6 → Fin 36) :
    (∀ v : JoinVerification, s.pending u = some v →
      (resend_code_callback s u now r).state.pending u
          = some { v with code := generate_verification_code r,
                          timestamp := now } ∧
      (∀ w, w ≠ u →
        (resend_code_callback s u now r).state.pending w = s.pending w) ∧
      (resend_code_callback s u now r).state.blocked = s.blocked ∧
      (resend_code_callback s u now r).state.verifiedFor = s.verifiedFor ∧
      (resend_code_callback s u now r).state.awaiting = s.awaiting ∧
      (resend_code_callback s u now r).effects.messages
          = [(u, newCodeText (generate_verification_code r))]) ∧
    (s.pending u = none →
      (resend_code_callback s u now r).state = s ∧
      (resend_code_callback s u now r).effects.messages
          = [(u, noPendingText)] ∧
      (resend_code_callback s u now r).effects.approveCalls = [] ∧
      (resend_code_callback s u now r).effects.declineCalls = []) := by
  constructor
  · intro v hrec
    refine ⟨?_, ?_, ?_, ?_, ?_, ?_⟩ <;>
      simp [resend_code_callback, hrec, upd]
    intro w hw
    simp [hw]
  · intro hrec
    refine ⟨?_, ?_, ?_, ?_⟩ <;> simp [resend_code_callback, hrec]

/-- C9 witness: resend for the fixture record at `t = 42` (record case) and
for user 9, who has no record, from the same state (no-record case). -/
theorem c9_witness :
    (resend_code_callback stPending 7 42 rZero).state.pending 7
        = some ⟨100, "C", generate_verification_code rZero, 42, 0, 3⟩ ∧
    (resend_code_callback stPending 7 42 rZero).effects.messages
        = [(7, newCodeText (generate_verification_code rZero))] ∧
    (resend_code_callback stPending 9 42 rZero).state = stPending ∧
    (resend_code_callback stPending 9 42 rZero).effects.messages
        = [(9, noPendingText)] :=
  ⟨((c9_resend_effects stPending 7 42 rZero).1
      ⟨100, "C", "AB12CD", 0, 0, 3⟩ (by decide)).1,
   ((c9_resend_effects stPending 7 42 rZero).1
      ⟨100, "C", "AB12CD", 0, 0, 3⟩ (by decide)).2.2.2.2.2,
   ((c9_resend_effects stPending 9 42 rZero).2 (by decide)).1,
   ((c9_resend_effects stPending 9 42 rZero).2 (by decide)).2.1⟩

/-! ## C10 -/

/-- C10: a new join request from a user who already has a pending record,
passing the fast paths and the legitimacy check, overwrites the record with
a fresh one: the new code, the new issuing time, the new request's chat id
and chat name, and `attempts` reset to 0. -/
theorem c10_rejoin_overwrites_record (s : BotState) (u : Nat) (c : Int)
    (f : Bool) (p : UserProfile) (now : Nat) (r : Fin 6 → Fin 36)
    (old : JoinVerification) (hold : s.pending u = some old)
    (hb : s.bulkMode c = false) (hbl : s.blocked u = false)
    (hleg : (check_user_legitimacy f p).legitimate = true) :
    (handle_join_request s u c f p now r).state.pending u
        = some ⟨c, (s.channels c).getD "Unknown",
                generate_verification_code r, now, 0, 3⟩ := by
  have hleg' : ¬ ((check_user_legitimacy f p).legitimate = false) := by
    simp [hleg]
  simp [handle_join_request, hb, hbl, hleg']

/-- C10 witness: user 7, holding the fixture record for channel 100, issues
a join request for channel 200; the stored record becomes the fresh one. -/
theorem c10_witness :
    (handle_join_request stPending 7 200 true ⟨false, "Alice"⟩ 77
        rZero).state.pending 7
      = some ⟨200, "Unknown", generate_verification_code rZero, 77, 0, 3⟩ :=
  c10_rejoin_overwrites_record stPending 7 200 true ⟨false, "Alice"⟩ 77 rZero
    ⟨100, "C", "AB12CD", 0, 0, 3⟩ (by decide) rfl rfl (by decide)
